import Mathlib

/-!
Verification development for the catshadow mixnet messaging client
(`client.go`).  The Go source is shallowly embedded: byte slices become
`List Nat` (each entry a byte value), Go maps become association lists in
their iteration order, machine integers become `Nat` with explicit
`% 2^32` where Go truncates, and a Go `panic` (or a send on the fatal
error channel) is modelled by an `Option`-valued function returning
`none`.  External collaborators (the double-ratchet primitive, the PANDA
key-exchange engine, the mixnet session and the spool wire codec) are
taken as oracle parameters, exactly as the client consumes them.
-/

namespace Catshadow

/-- Go `binary.BigEndian.PutUint32`: the four big-endian bytes of a
32-bit value.  Callers pass the value already truncated to `uint32`. -/
def putUint32BE (n : Nat) : List Nat :=
  [n / 16777216 % 256, n / 65536 % 256, n / 256 % 256, n % 256]

/-- Go `binary.BigEndian.Uint32` on the first four bytes of a slice.
Go panics when fewer than four bytes are present; every call site in the
embedding guards the length first, so the catch-all `0` is never
reached on the Go-reachable inputs. -/
def beUint32 : List Nat → Nat
  | b0 :: b1 :: b2 :: b3 :: _ => ((b0 * 256 + b1) * 256 + b2) * 256 + b3
  | _ => 0

/-- A conversation `Message` (client.go): plaintext, ciphertext,
timestamp (wall clock, as `Nat`), and the outbound/sent/delivered
status flags. -/
structure Message where
  plaintext : List Nat
  ciphertext : List Nat
  timestamp : Nat
  outbound : Bool
  sent : Bool
  delivered : Bool
deriving Repr, DecidableEq

/-- A `Contact` (contact.go, as used by client.go): stable id, nickname,
pending flag, the peer's spool write descriptor (`none` models a Go
`nil`, carrying the spool id when present), the serialized PANDA state
(`[]` models Go `nil`/empty, as compared by `bytes.Equal`), the textual
PANDA result, whether the PANDA shutdown channel is non-nil, and the
count of unacknowledged ciphertexts. -/
structure Contact where
  id : Nat
  nickname : String
  isPending : Bool
  spoolWriteDescriptor : Option Nat
  pandaKeyExchange : List Nat
  pandaResult : String
  pandaShutdownChan : Bool
  unACKed : Nat
deriving Repr, DecidableEq

/-- A `SentMessageDescriptor` stored in the client's `sendMap`,
associating a transport message id with the conversation it belongs
to. -/
structure SentMessageDescriptor where
  nickname : String
  messageID : Nat
deriving Repr, DecidableEq

/-- A key of the `sync.Map` send tracker.  `sync.Map` keys are compared
as Go interface values, so the dereferenced `[16]byte` array value
(`val`) and a `*[16]byte` pointer to it (`ptr`) are distinct keys that
never compare equal.  `Store` and `Load` in client.go use the
dereferenced value; `handleReply`'s deferred `Delete` passes the
pointer. -/
inductive GoKey
  | val (k : Nat)
  | ptr (k : Nat)
deriving Repr, DecidableEq

/-- Events emitted on the client's event channel. -/
inductive Event
  | keyExchangeCompleted (nickname : String) (err : Option String)
  | messageSent (nickname : String) (mid : Nat)
  | messageDelivered (nickname : String) (mid : Nat)
  | messageReceived (nickname : String) (plaintext : List Nat)
deriving Repr, DecidableEq

/-- Association-list lookup, modelling a Go map read (`m[k]`). -/
def lookupA {α β : Type} [DecidableEq α] : List (α × β) → α → Option β
  | [], _ => none
  | (k, v) :: rest, key => if k = key then some v else lookupA rest key

/-- Association-list insert/update, modelling a Go map write
(`m[k] = v`). -/
def insertA {α β : Type} [DecidableEq α] (l : List (α × β)) (k : α) (v : β) :
    List (α × β) :=
  match l with
  | [] => [(k, v)]
  | (k', v') :: rest =>
    if k' = k then (k, v) :: rest else (k', v') :: insertA rest k v

/-- Association-list erase, modelling `sync.Map.Delete`. -/
def eraseA {α β : Type} [DecidableEq α] (l : List (α × β)) (k : α) :
    List (α × β) :=
  match l with
  | [] => []
  | (k', v') :: rest => if k' = k then rest else (k', v') :: eraseA rest k

/-- A conversation: `MessageID → Message`, in iteration order.
Conversation `MessageID`s are modelled as `Nat`. -/
abbrev Conv := List (Nat × Message)

/-- All conversations: nickname → conversation. -/
abbrev ConvMap := List (String × Conv)

/-- The framing-parse step of `decryptMessage` (client.go 747-748):

  `payloadLen := binary.BigEndian.Uint32(plaintext[:4])`
  `message.Plaintext = plaintext[4 : 4+payloadLen]`

run on the raw plaintext returned by a contact's ratchet.  Go panics
when the plaintext holds fewer than 4 bytes (`plaintext[:4]`) or when
`4+payloadLen` exceeds its length (slice bounds out of range); both
panics are modelled by `none`. -/
def decryptParse (plaintext : List Nat) : Option (List Nat) :=
  if plaintext.length < 4 then none
  else
    let payloadLen := beUint32 plaintext
    if 4 + payloadLen ≤ plaintext.length then
      some ((plaintext.drop 4).take payloadLen)
    else none

/-- The framing step of `doSendMessage` (client.go 530-532):

  `payload := [DoubleRatchetPayloadLength]byte{}`
  `binary.BigEndian.PutUint32(payload[:4], uint32(len(message)))`
  `copy(payload[4:], message)`

`L` is the external constant `doubleratchet.DoubleRatchetPayloadLength`,
kept as a parameter.  `uint32(len(message))` truncates modulo `2^32`,
and Go's `copy` silently copies only the first `L - 4` bytes of an
over-long message; the remainder of the buffer stays zero. -/
def framePayload (L : Nat) (message : List Nat) : List Nat :=
  putUint32BE (message.length % 4294967296) ++
    (message ++ List.replicate (L - 4) 0).take (L - 4)

/-- Capacity of a Go slice built by `n` successive `append`s starting
from an empty literal (`Messages{}`): Go doubles the capacity whenever
it is exhausted (exact for the small-slice regime used here). -/
def goAppendCap : Nat → Nat
  | 0 => 0
  | n + 1 =>
    let c := goAppendCap n
    if n + 1 ≤ c then c else max 1 (2 * c)

/-- The comparison used by `Messages.Less` (client.go 96-98):
`d[i].Timestamp.Before(d[j].Timestamp)`, as the non-strict order that a
stable sort with that strict `Less` realizes. -/
def tsLe (a b : Nat × Message) : Prop := a.2.timestamp ≤ b.2.timestamp

instance : DecidableRel tsLe := fun a b => Nat.decLe a.2.timestamp b.2.timestamp

instance : IsTotal (Nat × Message) tsLe := ⟨fun a b => Nat.le_total a.2.timestamp b.2.timestamp⟩

instance : IsTrans (Nat × Message) tsLe := ⟨fun _ _ _ h h' => Nat.le_trans h h'⟩

/-- The candidate filter of `doRetransmit` (client.go 568-573): outbound
messages with `Sent && !Delivered`, in conversation-map iteration
order. -/
def retransmitCandidates (conv : Conv) : Conv :=
  conv.filter (fun m => m.2.outbound && !m.2.delivered && m.2.sent)

/-- The body of `doRetransmit` (client.go 567-595) once the conversation
map has been found: filter the undelivered sent messages, stable-sort
them by timestamp (`sort.Sort(rTx)`, insertion sort on these small
slices), then loop over `rTx[:someLimit]` with `someLimit = 4`.

Go panic modes, each modelled by `none`:
  - fewer than 3 candidates: the backing array capacity is below 4, so
    `rTx[:4]` itself panics (slice bounds out of range);
  - exactly 3 candidates: the capacity is 4, so `rTx[:4]` exposes a
    zero (nil) fourth `*msgWithID` whose `.Ciphertext` dereference
    panics;
  - a nil `contact.spoolWriteDescriptor` is dereferenced for the append
    command on the first loop iteration.

On success the result is the list of (conversation MessageID, Message)
pairs resubmitted, in submission order; the spool-append commands are
`(spool id, ciphertext)` of each. -/
def doRetransmitConv (contact : Contact) (conv : Conv) : Option Conv :=
  let rTx := List.insertionSort tsLe (retransmitCandidates conv)
  if goAppendCap rTx.length < 4 then none
  else if rTx.length < 4 then none
  else
    match contact.spoolWriteDescriptor with
    | none => none
    | some _ => some (rTx.take 4)

/-- `doRetransmit` (client.go 556-596).  When the contact has no
conversation map the Go code returns an error (which `doSendMessage`
ignores) without submitting anything. -/
def doRetransmit (contact : Contact) (conversations : ConvMap) : Option Conv :=
  match lookupA conversations contact.nickname with
  | none => some []
  | some conv => doRetransmitConv contact conv

/-- The observable outcome of one `doSendMessage` call: the updated
conversations and contact stores, the spool-append submissions
`(spool id, ciphertext)` made through the session (retransmissions
first, then the new message, in program order), the `sendMap` entries
stored, whether the `doRetransmit` prod was invoked, how many times the
state was persisted, and the events emitted (`doSendMessage` emits
none). -/
structure SendOutcome where
  conversations : ConvMap
  contacts : List (String × Contact)
  submissions : List (Nat × List Nat)
  sendMapAdds : List (GoKey × SentMessageDescriptor)
  retransmitInvoked : Bool
  saves : Nat
  events : List Event
deriving Repr, DecidableEq

/-- `doSendMessage` (client.go 495-554).  Parameters: `mm` is the
external ratchet constant `MaxMissingMessages`, `L` is
`DoubleRatchetPayloadLength`, `enc` is the contact's
`ratchet.Encrypt` (an external primitive, taken as an oracle), `now`
the wall clock, `tid0` the first fresh transport message id handed out
by the session (subsequent submissions get `tid0 + 1`, ...), with the
session's append and send calls modelled as succeeding.

Control flow translated from the source: insert the outbound message
(sent=false, delivered=false) into the conversation first; return
early when the contact is unknown or pending; when
`UnACKed == MaxMissingMessages-1`, call `doRetransmit` (its error
result is ignored, but a panic inside it aborts — `none`); frame and
encrypt; dereferencing a nil `spoolWriteDescriptor` for the append
command panics; finally increment `UnACKed`, persist, and store the
`sendMap` entry under the dereferenced transport id value. -/
def doSendMessage (mm L : Nat) (enc : List Nat → List Nat) (now tid0 : Nat)
    (contacts : List (String × Contact)) (conversations : ConvMap)
    (mid : Nat) (nickname : String) (message : List Nat) :
    Option SendOutcome :=
  let msg0 : Message :=
    { plaintext := message, ciphertext := [], timestamp := now,
      outbound := true, sent := false, delivered := false }
  let convs1 :=
    insertA conversations nickname
      (insertA ((lookupA conversations nickname).getD []) mid msg0)
  match lookupA contacts nickname with
  | none =>
    some { conversations := convs1, contacts := contacts, submissions := [],
           sendMapAdds := [], retransmitInvoked := false, saves := 0, events := [] }
  | some contact =>
    if contact.isPending then
      some { conversations := convs1, contacts := contacts, submissions := [],
             sendMapAdds := [], retransmitInvoked := false, saves := 0, events := [] }
    else
      let retrans := contact.unACKed == mm - 1
      match (if retrans then doRetransmit contact convs1 else some []) with
      | none => none
      | some rtx =>
        if L < 4 then none
        else
          let ciphertext := enc (framePayload L message)
          let msg1 := { msg0 with ciphertext := ciphertext }
          let convs2 :=
            insertA convs1 nickname
              (insertA ((lookupA convs1 nickname).getD []) mid msg1)
          match contact.spoolWriteDescriptor with
          | none => none
          | some sid =>
            let rtxAdds :=
              (List.range rtx.length).zip rtx |>.map
                (fun p => (GoKey.val (tid0 + p.1),
                  { nickname := contact.nickname, messageID := p.2.1 : SentMessageDescriptor }))
            some { conversations := convs2,
                   contacts := insertA contacts nickname
                     { contact with unACKed := contact.unACKed + 1 },
                   submissions := rtx.map (fun m => (sid, m.2.ciphertext)) ++ [(sid, ciphertext)],
                   sendMapAdds := rtxAdds ++
                     [(GoKey.val (tid0 + rtx.length),
                       { nickname := nickname, messageID := mid })],
                   retransmitInvoked := retrans, saves := 1, events := [] }

/-- `SendMessage` (client.go 479-493): draws a random conversation
MessageID (taken here as the parameter `mid`), enqueues the send
operation for the worker, and returns the id to the caller as a
handle. -/
def SendMessage (mid : Nat) (nickname : String) (message : List Nat) :
    Nat × (Nat × String × List Nat) :=
  (mid, (mid, nickname, message))

/-- The `ContactExchange` blob produced by a completed PANDA exchange:
the peer's signed key-exchange bytes and spool write descriptor
(modelled by its spool id). -/
structure ContactExchange where
  signedKeyExchange : List Nat
  spoolWriteDescriptor : Nat
deriving Repr, DecidableEq

/-- A `panda.PandaUpdate` as consumed by `processPANDAUpdate`:
at most one of `err`, `serialised`, `result` is meaningful and they are
tested in that order by the Go switch. -/
structure PandaUpdate where
  err : Option String
  serialised : Option (List Nat)
  result : Option (List Nat)
deriving Repr, DecidableEq

/-- The observable outcome of `processPANDAUpdate` on one contact: the
updated contact, the events emitted, and the number of `c.save()`
persists performed. -/
structure PUResult where
  contact : Contact
  events : List Event
  saves : Nat
deriving Repr, DecidableEq

/-- `processPANDAUpdate` (client.go 394-476), for an update whose
contact id resolves.  `parse` is `parseContactExchangeBytes`
(contact.go, external to this file's source: a CBOR decode that either
yields a `ContactExchange` or fails) and `ratchetKx` is the external
`ratchet.ProcessKeyExchange`, `true` meaning success.

Branches, in source order:
  - `update.Err != nil`: record the failure text, clear the shutdown
    channel, emit `KeyExchangeCompleted` with the error (a SURB-ACK
    timeout additionally restarts the exchange task, which has no
    effect on the contact fields), and fall through to the final
    `c.save()`;
  - `update.Serialised != nil` equal to the stored
    `contact.pandaKeyExchange` bytes: emit the "state echo" error event
    and return early — before the final `c.save()`;
  - `update.Serialised != nil`, fresh bytes: store them and fall
    through to the save;
  - `update.Result != nil`: clear `pandaKeyExchange`; on parse failure
    or ratchet failure record the error text, set `IsPending = false`,
    save, emit the error event and return; on success set the spool
    write descriptor, set `IsPending = false`, emit the success event
    and fall through to the save. -/
def processPANDAUpdate (parse : List Nat → Option ContactExchange)
    (ratchetKx : List Nat → Bool) (contact : Contact) (update : PandaUpdate) :
    PUResult :=
  match update.err with
  | some e =>
    { contact := { contact with pandaResult := e, pandaShutdownChan := false },
      events := [Event.keyExchangeCompleted contact.nickname (some e)],
      saves := 1 }
  | none =>
  match update.serialised with
  | some s =>
    if contact.pandaKeyExchange = s then
      { contact := contact,
        events := [Event.keyExchangeCompleted contact.nickname
          (some "strange, our PANDA key exchange echoed our exchange bytes")],
        saves := 0 }
    else
      { contact := { contact with pandaKeyExchange := s }, events := [], saves := 1 }
  | none =>
  match update.result with
  | some r =>
    let contact1 := { contact with pandaKeyExchange := [] }
    match parse r with
    | none =>
      { contact := { contact1 with
          pandaResult := "failure to parse contact exchange bytes", isPending := false },
        events := [Event.keyExchangeCompleted contact.nickname
          (some "failure to parse contact exchange bytes")],
        saves := 1 }
    | some exchange =>
      if ratchetKx exchange.signedKeyExchange then
        { contact := { contact1 with
            spoolWriteDescriptor := some exchange.spoolWriteDescriptor,
            isPending := false },
          events := [Event.keyExchangeCompleted contact.nickname none],
          saves := 1 }
      else
        { contact := { contact1 with
            pandaResult := "Double ratchet key exchange failure", isPending := false },
          events := [Event.keyExchangeCompleted contact.nickname
            (some "Double ratchet key exchange failure")],
          saves := 1 }
  | none => { contact := contact, events := [], saves := 1 }

/-- Whether a `PandaUpdate` hits the "state echo" branch of
`processPANDAUpdate` for a given contact: no error, and serialised
bytes equal (`bytes.Equal`) to the stored exchange state. -/
def isEchoUpdate (contact : Contact) (update : PandaUpdate) : Bool :=
  update.err.isNone &&
    match update.serialised with
    | some s => decide (contact.pandaKeyExchange = s)
    | none => false

/-- A decoded spool response (`common.SpoolResponseFromBytes`): the
32-bit spool slot id, the status check `IsOK()`, and the stored
message bytes. -/
structure SpoolResponse where
  messageID : Nat
  ok : Bool
  message : List Nat
deriving Repr, DecidableEq

/-- A `client.MessageReplyEvent` as consumed by `handleReply`: the
transport message id (the value behind `replyEvent.MessageID`) and the
payload, already run through `SpoolResponseFromBytes` (`none` models a
payload that fails to decode, which the Go code treats as a fatal
bug). -/
structure MessageReplyEvent where
  tid : Nat
  payload : Option SpoolResponse
deriving Repr, DecidableEq

/-- The client state touched by the reply path: the user's own
nickname, the `sendMap` tracker, the contact store by nickname, the
conversations, the read spool offset, a counter supplying the fresh
random conversation MessageIDs drawn by `decryptMessage`, the number of
`MessageReceived` emissions, the persist count, and the emitted
events. -/
structure HandleState where
  user : String
  sendMap : List (GoKey × SentMessageDescriptor)
  contacts : List (String × Contact)
  conversations : ConvMap
  readOffset : Nat
  nextMid : Nat
  receivedCount : Nat
  saves : Nat
  events : List Event
deriving Repr, DecidableEq

/-- The delivery-acknowledgement block of `handleReply`
(client.go 670-683): look up the conversation, the message, and the
contact; decrement `UnACKed` when positive and otherwise
`panic("bug")` (`none`), mark the message delivered, clear its
ciphertext and persist.  Missing conversation or message silently
skips the block; a missing contact also hits the panic. -/
def handleDelivery (st : HandleState) (tp : SentMessageDescriptor) :
    Option HandleState :=
  match lookupA st.conversations tp.nickname with
  | none => some st
  | some conv =>
    match lookupA conv tp.messageID with
    | none => some st
    | some msg =>
      match lookupA st.contacts tp.nickname with
      | none => none
      | some contact =>
        if contact.unACKed > 0 then
          some { st with
            contacts := insertA st.contacts tp.nickname
              { contact with unACKed := contact.unACKed - 1 },
            conversations := insertA st.conversations tp.nickname
              (insertA conv tp.messageID
                { msg with delivered := true, ciphertext := [] }),
            saves := st.saves + 1 }
        else none

/-- `decryptMessage` (client.go 729-778).  The per-contact trial ratchet
decryption loop is abstracted by the oracle `dec`: `some (nickname,
plaintext)` when the first established contact whose `ratchet.Decrypt`
succeeds is `nickname`, yielding the raw ratchet plaintext, and `none`
when every established contact's ratchet fails.  On success the
length-prefix framing is parsed by `decryptParse` — whose out-of-range
slice panic (`none`) aborts the whole call — an inbound message with a
fresh conversation MessageID is inserted, and `MessageReceived` is
emitted.  Returns the Go function's `decrypted` flag and the updated
state; note that `decryptMessage` never persists. -/
def decryptMessageM (dec : List Nat → Option (String × List Nat)) (now : Nat)
    (st : HandleState) (ciphertext : List Nat) : Option (Bool × HandleState) :=
  match dec ciphertext with
  | none => some (false, st)
  | some (nickname, plaintext) =>
    match decryptParse plaintext with
    | none => none
    | some body =>
      some (true, { st with
        nextMid := st.nextMid + 1,
        conversations := insertA st.conversations nickname
          (insertA ((lookupA st.conversations nickname).getD []) st.nextMid
            { plaintext := body, ciphertext := [], timestamp := now,
              outbound := false, sent := false, delivered := false }),
        receivedCount := st.receivedCount + 1,
        events := st.events ++ [Event.messageReceived nickname body] })

/-- `handleReply` (client.go 651-715).  A reply whose transport id has
no tracker entry is ignored.  Otherwise the deferred
`c.sendMap.Delete(replyEvent.MessageID)` runs on every return path —
but its key is the `*MessageID` pointer, not the dereferenced array
value under which `Store` filed the entry, so it is modelled (exactly)
as erasing the `GoKey.ptr` key.  An undecodable spool response is a
fatal bug (`none`); a non-OK status is logged and dropped; a tracker
nickname other than the user is a delivery acknowledgement
(`handleDelivery`, then a `MessageDelivered` event on every non-panic
path); the user's own nickname marks a read response, compared against
the read offset: smaller is a duplicate (dropped), equal advances the
offset and then trial-decrypts via `decryptMessageM` (a decrypt
failure for the tip is `panic`), larger is
`panic("received spool response for MessageID not requested yet")`. -/
def handleReply (dec : List Nat → Option (String × List Nat)) (now : Nat)
    (st : HandleState) (ev : MessageReplyEvent) : Option HandleState :=
  match lookupA st.sendMap (GoKey.val ev.tid) with
  | none => some st
  | some tp =>
    match ev.payload with
    | none => none
    | some resp =>
      if !resp.ok then
        some { st with sendMap := eraseA st.sendMap (GoKey.ptr ev.tid) }
      else if tp.nickname ≠ st.user then
        match handleDelivery st tp with
        | none => none
        | some st1 =>
          some { st1 with
            sendMap := eraseA st1.sendMap (GoKey.ptr ev.tid),
            events := st1.events ++ [Event.messageDelivered tp.nickname tp.messageID] }
      else
        if resp.messageID < st.readOffset then
          some { st with sendMap := eraseA st.sendMap (GoKey.ptr ev.tid) }
        else if resp.messageID = st.readOffset then
          match decryptMessageM dec now
              { st with readOffset := st.readOffset + 1 } resp.message with
          | none => none
          | some (decrypted, st2) =>
            if decrypted then
              some { st2 with sendMap := eraseA st2.sendMap (GoKey.ptr ev.tid) }
            else none
        else none

/-- Process a sequence of reply events through `handleReply`; a panic
anywhere aborts the run. -/
def runReplies (dec : List Nat → Option (String × List Nat)) (now : Nat)
    (st : HandleState) : List MessageReplyEvent → Option HandleState
  | [] => some st
  | ev :: evs =>
    match handleReply dec now st ev with
    | none => none
    | some st1 => runReplies dec now st1 evs

/-- A minimal client state for exercising the receive pipeline. -/
def c1State : HandleState :=
  { user := "alice", sendMap := [], contacts := [], conversations := [],
    readOffset := 0, nextMid := 0, receivedCount := 0, saves := 0, events := [] }

/-- An established contact with a working spool write descriptor, used
to exercise `doRetransmit`. -/
def retransContact : Contact :=
  { id := 4, nickname := "bob", isPending := false, spoolWriteDescriptor := some 7,
    pandaKeyExchange := [], pandaResult := "", pandaShutdownChan := false, unACKed := 0 }

/-- An outbound message that was sent but not yet delivered — a
retransmission candidate. -/
def undeliveredMsg (ts : Nat) : Message :=
  { plaintext := [], ciphertext := [ts], timestamp := ts,
    outbound := true, sent := true, delivered := false }

/-- A conversation holding `n` retransmission candidates with distinct
timestamps. -/
def c2Conv (n : Nat) : Conv :=
  (List.range n).map (fun i => (i, undeliveredMsg i))

/-- A conversation of four retransmission candidates with identical
timestamps, in a map iteration order that lists conversation id 2
before id 1. -/
def c9Conv : Conv :=
  [(2, undeliveredMsg 5), (1, undeliveredMsg 5), (3, undeliveredMsg 5), (4, undeliveredMsg 5)]

/-- An established contact for the in-flight window scenario
(MaxMissingMessages = 17, so MaxInFlight = 16). -/
def c3Contact : Contact :=
  { id := 1, nickname := "bob", isPending := false, spoolWriteDescriptor := some 7,
    pandaKeyExchange := [], pandaResult := "", pandaShutdownChan := false, unACKed := 0 }

/-- Run `n` consecutive `doSendMessage` calls to the contact "bob"
(fresh conversation ids, no replies or sent-acks in between), with
`MaxMissingMessages = 17` and `DoubleRatchetPayloadLength = 8`.
Returns the contact store, the conversations and the number of sends
that invoked `doRetransmit`, or `none` once a send panics. -/
def runSends : Nat → Option (List (String × Contact) × ConvMap × Nat)
  | 0 => some ([("bob", c3Contact)], [], 0)
  | n + 1 =>
    match runSends n with
    | none => none
    | some (cts, convs, r) =>
      match doSendMessage 17 8 (fun p => p) 0 0 cts convs (n + 1) "bob" [] with
      | none => none
      | some o =>
        some (o.contacts, o.conversations, r + (if o.retransmitInvoked then 1 else 0))

/-- A contact whose PANDA key exchange is still pending. -/
def c5Contact : Contact :=
  { id := 5, nickname := "carol", isPending := true, spoolWriteDescriptor := none,
    pandaKeyExchange := [3], pandaResult := "", pandaShutdownChan := true, unACKed := 0 }

/-- A PANDA `Success` update carrying a result blob. -/
def c5Update : PandaUpdate := { err := none, serialised := none, result := some [1] }

/-- A pending contact whose stored exchange state is the single byte 7. -/
def c7Contact : Contact :=
  { id := 6, nickname := "dave", isPending := true, spoolWriteDescriptor := none,
    pandaKeyExchange := [7], pandaResult := "", pandaShutdownChan := true, unACKed := 0 }

/-- A PANDA `Progress` update echoing exactly the stored state bytes. -/
def c7Update : PandaUpdate := { err := none, serialised := some [7], result := none }

/-- The established contact receiving messages in the duplicate-tip
scenario. -/
def c6Contact : Contact :=
  { id := 2, nickname := "bob", isPending := false, spoolWriteDescriptor := some 7,
    pandaKeyExchange := [], pandaResult := "", pandaShutdownChan := false, unACKed := 0 }

/-- Client state awaiting the read response for spool slot 5, with two
outstanding read requests for that slot in the send tracker. -/
def c6State : HandleState :=
  { user := "alice",
    sendMap := [(GoKey.val 1, { nickname := "alice", messageID := 5 }),
                (GoKey.val 2, { nickname := "alice", messageID := 5 })],
    contacts := [("bob", c6Contact)],
    conversations := [],
    readOffset := 5, nextMid := 50, receivedCount := 0, saves := 0, events := [] }

/-- A trial-decryption oracle: contact "bob"'s ratchet decrypts every
ciphertext to a well-formed frame with a 2-byte payload. -/
def c6Dec : List Nat → Option (String × List Nat) :=
  fun _ => some ("bob", [0, 0, 0, 2, 10, 20])

/-- A spool read reply for slot 5 arriving under transport id `t`. -/
def c6Reply (t : Nat) : MessageReplyEvent :=
  { tid := t, payload := some { messageID := 5, ok := true, message := [3] } }

/-- A contact with one ciphertext in flight. -/
def c10Contact : Contact :=
  { id := 3, nickname := "bob", isPending := false, spoolWriteDescriptor := some 7,
    pandaKeyExchange := [], pandaResult := "", pandaShutdownChan := false, unACKed := 1 }

/-- The in-flight outbound message awaiting its delivery
acknowledgement. -/
def c10Msg : Message :=
  { plaintext := [1], ciphertext := [9], timestamp := 0,
    outbound := true, sent := true, delivered := false }

/-- Client state with one spool-append acknowledgement outstanding under
transport id 9. -/
def c10State : HandleState :=
  { user := "alice",
    sendMap := [(GoKey.val 9, { nickname := "bob", messageID := 1 })],
    contacts := [("bob", c10Contact)],
    conversations := [("bob", [(1, c10Msg)])],
    readOffset := 0, nextMid := 0, receivedCount := 0, saves := 0, events := [] }

/-- A delivery acknowledgement for the spool append sent under
transport id 9. -/
def c10Reply : MessageReplyEvent :=
  { tid := 9, payload := some { messageID := 0, ok := true, message := [] } }

/-- A concrete established contact with five ciphertexts in flight,
used to instantiate the send-step characterization. -/
def c3WitnessContact : Contact :=
  { id := 8, nickname := "w", isPending := false, spoolWriteDescriptor := some 1,
    pandaKeyExchange := [], pandaResult := "", pandaShutdownChan := false, unACKed := 5 }

/-- The framed, identity-encrypted outbound message stored by that
send. -/
def c3WitnessMsg : Message :=
  { plaintext := [], ciphertext := [0, 0, 0, 0], timestamp := 0,
    outbound := true, sent := false, delivered := false }

/-- The outcome of one `doSendMessage` call to `c3WitnessContact` with
`mm = 1`, `L = 4`, identity encryption, empty message and conversation
id 0. -/
def c3WitnessOutcome : SendOutcome :=
  { conversations := [("w", [(0, c3WitnessMsg)])],
    contacts := [("w", { c3WitnessContact with unACKed := 6 })],
    submissions := [(1, [0, 0, 0, 0])],
    sendMapAdds := [(GoKey.val 0, { nickname := "w", messageID := 0 })],
    retransmitInvoked := false, saves := 1, events := [] }

/-! ### Helper lemmas -/

theorem lookupA_insertA_self {α β : Type} [DecidableEq α]
    (l : List (α × β)) (k : α) (v : β) : lookupA (insertA l k v) k = some v := by
  induction l with
  | nil => simp [insertA, lookupA]
  | cons hd tl ih =>
    obtain ⟨k', v'⟩ := hd
    by_cases h : k' = k
    · simp [insertA, h, lookupA]
    · simp [insertA, h, lookupA, ih]

theorem beUint32_putUint32BE (n : Nat) (rest : List Nat) :
    beUint32 (putUint32BE n ++ rest) = n % 4294967296 := by
  simp only [putUint32BE, List.cons_append, List.nil_append, beUint32]
  omega

theorem length_framePayload (L : Nat) (p : List Nat) (h : 4 ≤ L) :
    (framePayload L p).length = L := by
  simp only [framePayload, List.length_append, List.length_take,
    List.length_replicate, putUint32BE, List.length_cons, List.length_nil]
  omega

theorem decryptParse_framePayload (L : Nat) (p : List Nat) (h4 : 4 ≤ L)
    (hlen : p.length ≤ L - 4) (hsmall : p.length < 4294967296) :
    decryptParse (framePayload L p) = some p := by
  have hL : (framePayload L p).length = L := length_framePayload L p h4
  have hbe : beUint32 (framePayload L p) = p.length := by
    unfold framePayload
    rw [beUint32_putUint32BE]
    omega
  unfold decryptParse
  rw [hL, hbe, if_neg (by omega), if_pos (by omega)]
  have hdrop : (framePayload L p).drop 4 = (p ++ List.replicate (L - 4) 0).take (L - 4) := by
    unfold framePayload
    have h4' : (4 : Nat) = (putUint32BE (p.length % 4294967296)).length := by
      simp [putUint32BE]
    rw [h4', List.drop_left]
  rw [hdrop, List.take_take, Nat.min_eq_left hlen]
  have htl : (p ++ List.replicate (L - 4) 0).take p.length = p :=
    List.take_left p (List.replicate (L - 4) 0)
  rw [htl]

theorem handleDelivery_counts (st : HandleState) (tp : SentMessageDescriptor)
    (st1 : HandleState) (h : handleDelivery st tp = some st1) :
    st1.readOffset = st.readOffset ∧ st1.receivedCount = st.receivedCount := by
  unfold handleDelivery at h
  split at h
  · cases h; exact ⟨rfl, rfl⟩
  · split at h
    · cases h; exact ⟨rfl, rfl⟩
    · split at h
      · cases h
      · split at h
        · cases h; exact ⟨rfl, rfl⟩
        · cases h

theorem decryptMessageM_counts (dec : List Nat → Option (String × List Nat))
    (now : Nat) (st : HandleState) (ct : List Nat) (b : Bool) (st2 : HandleState)
    (h : decryptMessageM dec now st ct = some (b, st2)) :
    st2.readOffset = st.readOffset ∧
      st2.receivedCount = st.receivedCount + (if b then 1 else 0) := by
  unfold decryptMessageM at h
  split at h
  · cases h; exact ⟨rfl, by simp⟩
  · split at h
    · cases h
    · cases h; exact ⟨rfl, by simp⟩

theorem handleReply_counts (dec : List Nat → Option (String × List Nat))
    (now : Nat) (st : HandleState) (ev : MessageReplyEvent) (st' : HandleState)
    (h : handleReply dec now st ev = some st') :
    st.readOffset ≤ st'.readOffset ∧
      st'.readOffset + st.receivedCount = st.readOffset + st'.receivedCount := by
  unfold handleReply at h
  split at h
  · cases h; exact ⟨Nat.le_refl _, rfl⟩
  · split at h
    · cases h
    · split at h
      · cases h; exact ⟨Nat.le_refl _, rfl⟩
      · split at h
        · split at h
          · cases h
          · rename_i st1 hdel
            cases h
            obtain ⟨h1, h2⟩ := handleDelivery_counts st _ st1 hdel
            dsimp only
            omega
        · split at h
          · cases h; exact ⟨Nat.le_refl _, rfl⟩
          · split at h
            · split at h
              · cases h
              · rename_i decrypted st2 hdm
                split at h
                · rename_i hdec
                  cases h
                  obtain ⟨h1, h2⟩ := decryptMessageM_counts dec now _ _ _ _ hdm
                  rw [hdec] at h2
                  dsimp only at h1 h2 ⊢
                  simp at h2
                  omega
                · cases h
            · cases h

theorem runReplies_counts (dec : List Nat → Option (String × List Nat))
    (now : Nat) (evs : List MessageReplyEvent) :
    ∀ (st st' : HandleState), runReplies dec now st evs = some st' →
      st.readOffset ≤ st'.readOffset ∧
        st'.readOffset + st.receivedCount = st.readOffset + st'.receivedCount := by
  induction evs with
  | nil =>
    intro st st' h
    unfold runReplies at h
    cases h
    omega
  | cons ev evs ih =>
    intro st st' h
    unfold runReplies at h
    split at h
    · cases h
    · rename_i st1 hstep
      obtain ⟨h1, h2⟩ := handleReply_counts dec now st ev st1 hstep
      obtain ⟨h3, h4⟩ := ih st1 st' h
      exact ⟨Nat.le_trans h1 h3, by omega⟩

/-! ### Claim theorems -/

/-- C1: the claim says trial decryption never panics on peer-originated
data — that for every ciphertext an established contact's ratchet
decrypts, `4 + payloadLen ≤ len(plaintext)` holds for the big-endian
length parsed from the first 4 bytes.  The code violates this: a peer
controls the decrypted plaintext, and for the plaintext
`[0, 0, 0, 5]` (length prefix 5, no payload bytes) the slice
`plaintext[4 : 4+5]` is out of bounds, so `decryptMessage` — and with
it the whole reply path — panics. -/
theorem C1_decrypt_framing_panics :
    decryptParse [0, 0, 0, 5] = none ∧
    ¬ (4 + beUint32 [0, 0, 0, 5] ≤ ([0, 0, 0, 5] : List Nat).length) ∧
    decryptMessageM (fun _ => some ("mallory", [0, 0, 0, 5])) 0 c1State [1] = none := by
  exact ⟨rfl, by decide, rfl⟩

/-- C2: the claim says `doRetransmit` submits `min(4, n)` spool appends
and never panics, also for n < 4.  The code slices `rTx[:4]`
unconditionally: with 0, 1 or 2 candidates the slice itself panics
(capacity below 4), with exactly 3 it exposes a nil fourth entry whose
dereference panics.  Only with at least 4 candidates does it complete,
submitting exactly 4. -/
theorem C2_retransmit_slice_panics :
    doRetransmitConv retransContact [] = none ∧
    doRetransmitConv retransContact (c2Conv 2) = none ∧
    doRetransmitConv retransContact (c2Conv 3) = none ∧
    (doRetransmitConv retransContact (c2Conv 5)).map List.length = some 4 := by
  exact ⟨rfl, rfl, rfl, rfl⟩

/-- C4 counterexample: the claim says a plaintext longer than
`DoubleRatchetPayloadLength - 4` fails with `PayloadTooLarge` rather
than being silently truncated.  No such error exists: with `L = 8` the
5-byte plaintext `[1,2,3,4,5]` is framed successfully as
`[0,0,0,5, 1,2,3,4]` — the length prefix records 5 but the copy kept
only 4 bytes — and the receiver-side parse of that frame then panics
out of bounds. -/
theorem C4_truncation_counterexample :
    framePayload 8 [1, 2, 3, 4, 5] = [0, 0, 0, 5, 1, 2, 3, 4] ∧
    decryptParse (framePayload 8 [1, 2, 3, 4, 5]) = none := by
  exact ⟨rfl, rfl⟩

/-- C4 (amended): `doSendMessage` frames the payload into an `L`-byte
buffer as a big-endian 32-bit prefix holding the full plaintext length
followed by the plaintext truncated to `L - 4` bytes and zero-padded;
there is no `PayloadTooLarge` failure.  For every plaintext within
`L - 4` bytes the round trip through the receiver-side parse returns
the plaintext unchanged (spec property P6). -/
theorem C4_send_framing :
    ∀ (L : Nat) (p : List Nat), 4 ≤ L → p.length < 4294967296 →
      (framePayload L p).length = L ∧
      (p.length ≤ L - 4 → decryptParse (framePayload L p) = some p) ∧
      framePayload L p = putUint32BE (p.length % 4294967296) ++
        (p ++ List.replicate (L - 4) 0).take (L - 4) := by
  intro L p h1 h2
  exact ⟨length_framePayload L p h1,
    fun h3 => decryptParse_framePayload L p h1 h3 h2, rfl⟩

/-- Witness for C4: instantiates the framing theorem at `L = 8`,
`p = [9]`. -/
theorem C4_send_framing_witness :
    (4 ≤ 8 ∧ ([9] : List Nat).length < 4294967296) ∧
    ((framePayload 8 [9]).length = 8 ∧
      (([9] : List Nat).length ≤ 8 - 4 → decryptParse (framePayload 8 [9]) = some [9]) ∧
      framePayload 8 [9] = putUint32BE (([9] : List Nat).length % 4294967296) ++
        (([9] : List Nat) ++ List.replicate (8 - 4) 0).take (8 - 4)) :=
  ⟨⟨by decide, by decide⟩, C4_send_framing 8 [9] (by decide) (by decide)⟩

/-- C9 counterexample: the claim says equal-timestamp retransmission
candidates are resubmitted smaller conversation-mid first.  With four
candidates all stamped 5, listed in map iteration order
`[2, 1, 3, 4]`, the code resubmits them in that same order — id 2
before id 1 — because `Messages.Less` compares only timestamps and the
(stable) sort never consults the conversation mid. -/
theorem C9_no_mid_tiebreak :
    (doRetransmit retransContact [("bob", c9Conv)]).map (fun l => l.map Prod.fst) =
      some [2, 1, 3, 4] ∧
    c9Conv.map (fun m => m.2.timestamp) = [5, 5, 5, 5] := by
  exact ⟨rfl, rfl⟩

/-- C9 (amended): the messages selected for retransmission are ordered
ascending by timestamp; candidates with equal timestamps keep the
conversation-map iteration order (there is no conversation-mid
tie-break). -/
theorem C9_retransmit_sorted :
    ∀ (contact : Contact) (conversations : ConvMap) (sel : Conv),
      doRetransmit contact conversations = some sel → List.Sorted tsLe sel := by
  intro contact conversations sel h
  unfold doRetransmit at h
  split at h
  · cases h; exact List.sorted_nil
  · rename_i conv hconv
    unfold doRetransmitConv at h
    dsimp only at h
    by_cases h1 : goAppendCap (List.insertionSort tsLe (retransmitCandidates conv)).length < 4
    · rw [if_pos h1] at h; cases h
    · rw [if_neg h1] at h
      by_cases h2 : (List.insertionSort tsLe (retransmitCandidates conv)).length < 4
      · rw [if_pos h2] at h; cases h
      · rw [if_neg h2] at h
        cases hd : contact.spoolWriteDescriptor with
        | none => rw [hd] at h; cases h
        | some sid =>
          rw [hd] at h
          cases h
          exact List.Pairwise.sublist (List.take_sublist 4 _)
            (List.sorted_insertionSort tsLe _)

/-- Witness for C9 (amended): the four messages selected from `c9Conv`
are sorted by timestamp. -/
theorem C9_retransmit_sorted_witness :
    List.Sorted tsLe [(2, undeliveredMsg 5), (1, undeliveredMsg 5),
      (3, undeliveredMsg 5), (4, undeliveredMsg 5)] :=
  C9_retransmit_sorted retransContact [("bob", c9Conv)] _ rfl

/-- C10: the claim says a processed reply's `sendMap` entry is removed,
so a second reply with the same transport id has no effect.  The code's
deferred `Delete` passes the `*MessageID` pointer while `Store` filed
the entry under the dereferenced array value, so the entry survives:
after the first delivery acknowledgement under transport id 9 the
tracker still holds the entry (and `unacked_count` fell from 1 to 0
with one `MessageDelivered` emitted), and an identical second reply is
re-processed — hitting the `panic("bug")` at the zero `unacked_count`
check. -/
theorem C10_reply_replay :
    (handleReply (fun _ => none) 0 c10State c10Reply).map
      (fun s => (lookupA s.sendMap (GoKey.val 9),
        (lookupA s.contacts "bob").map Contact.unACKed, s.events)) =
      some (some { nickname := "bob", messageID := 1 }, some 0,
        [Event.messageDelivered "bob" 1]) ∧
    runReplies (fun _ => none) 0 c10State [c10Reply, c10Reply] = none := by
  exact ⟨rfl, rfl⟩

/-- C3 counterexample: the claim says that with `MaxInFlight = 16`
(`MaxMissingMessages = 17`) the 16th consecutive send triggers
`doRetransmit`.  Running sixteen sends with no replies shows zero
`doRetransmit` invocations: the window check compares `UnACKed`
*before* the increment, so it can only fire on a seventeenth send. -/
theorem C3_sixteenth_send_no_retransmit :
    (runSends 16).map (fun r => r.2.2) = some 0 := by
  exact rfl

/-- C3 (amended): with `MaxInFlight = 16`, sixteen sends without
replies leave `unacked_count` at exactly 16 with `doRetransmit` never
invoked; a seventeenth send is the one that invokes `doRetransmit`
(which then panics, since no message is sent-but-undelivered), so
`unacked_count > MaxInFlight` is only prevented by that panic.  In
general a completed send to an established contact increments
`unacked_count` by exactly one and invokes `doRetransmit` exactly when
`unacked_count = MaxMissingMessages - 1` before the increment. -/
theorem C3_in_flight_window :
    ((runSends 16).map (fun r => (lookupA r.1 "bob").map Contact.unACKed) =
      some (some 16)) ∧
    runSends 17 = none ∧
    (∀ (mm L : Nat) (enc : List Nat → List Nat) (now tid0 : Nat)
        (contacts : List (String × Contact)) (conversations : ConvMap)
        (mid : Nat) (nickname : String) (message : List Nat)
        (contact : Contact) (o : SendOutcome),
        lookupA contacts nickname = some contact → contact.isPending = false →
        doSendMessage mm L enc now tid0 contacts conversations mid nickname message =
          some o →
        lookupA o.contacts nickname = some { contact with unACKed := contact.unACKed + 1 } ∧
          o.retransmitInvoked = (contact.unACKed == mm - 1)) := by
  refine ⟨rfl, rfl, ?_⟩
  intro mm L enc now tid0 contacts conversations mid nickname message contact o h1 h2 h3
  unfold doSendMessage at h3
  rw [h1] at h3
  dsimp only at h3
  rw [h2] at h3
  simp only [Bool.false_eq_true, if_false] at h3
  split at h3
  · cases h3
  · split at h3
    · cases h3
    · split at h3
      · cases h3
      · cases h3
        dsimp only
        rw [h2]
        exact ⟨lookupA_insertA_self _ _ _, rfl⟩

/-- Witness for C3 (amended): instantiates the send-step
characterization at the concrete contact `c3WitnessContact`. -/
theorem C3_in_flight_window_witness :
    lookupA c3WitnessOutcome.contacts "w" =
      some { c3WitnessContact with unACKed := c3WitnessContact.unACKed + 1 } ∧
    c3WitnessOutcome.retransmitInvoked = (c3WitnessContact.unACKed == 1 - 1) :=
  C3_in_flight_window.2.2 1 4 (fun p => p) 0 0 [("w", c3WitnessContact)] [] 0 "w" []
    c3WitnessContact c3WitnessOutcome rfl rfl rfl

/-- C5 counterexample: the claim says that on a parser (or ratchet)
failure in the Success branch the contact stays pending, and that any
established contact has a spool write descriptor.  Delivering a
Success update whose result blob fails to parse to the pending contact
`c5Contact` leaves the contact with `IsPending = false` and
`spoolWriteDescriptor` still nil — an established-flagged contact
violating the claimed invariant. -/
theorem C5_failed_exchange_unpends :
    (processPANDAUpdate (fun _ => none) (fun _ => true) c5Contact c5Update).contact.isPending =
      false ∧
    (processPANDAUpdate (fun _ => none) (fun _ => true) c5Contact c5Update).contact.spoolWriteDescriptor =
      none := by
  exact ⟨rfl, rfl⟩

/-- C5 (amended): in the Success branch, a fully successful parse and
ratchet key exchange establishes the contact with the exchanged spool
write descriptor; on a parser or ratchet failure the contact *also*
leaves pending (`IsPending` is set to false) with `pandaResult`
recording the error and `spoolWriteDescriptor` unchanged (hence nil
for a previously pending contact).  Only the `update.Err` failure
branch leaves the contact pending. -/
theorem C5_established_contact :
    ∀ (parse : List Nat → Option ContactExchange) (ratchetKx : List Nat → Bool)
      (contact : Contact) (update : PandaUpdate) (r : List Nat),
      update.err = none → update.serialised = none → update.result = some r →
      (∀ exch, parse r = some exch → ratchetKx exch.signedKeyExchange = true →
        (processPANDAUpdate parse ratchetKx contact update).contact.isPending = false ∧
        (processPANDAUpdate parse ratchetKx contact update).contact.spoolWriteDescriptor =
          some exch.spoolWriteDescriptor) ∧
      (parse r = none →
        (processPANDAUpdate parse ratchetKx contact update).contact.isPending = false ∧
        (processPANDAUpdate parse ratchetKx contact update).contact.spoolWriteDescriptor =
          contact.spoolWriteDescriptor ∧
        (processPANDAUpdate parse ratchetKx contact update).contact.pandaResult =
          "failure to parse contact exchange bytes") ∧
      (∀ exch, parse r = some exch → ratchetKx exch.signedKeyExchange = false →
        (processPANDAUpdate parse ratchetKx contact update).contact.isPending = false ∧
        (processPANDAUpdate parse ratchetKx contact update).contact.spoolWriteDescriptor =
          contact.spoolWriteDescriptor ∧
        (processPANDAUpdate parse ratchetKx contact update).contact.pandaResult =
          "Double ratchet key exchange failure") := by
  intro parse ratchetKx contact update r he hs hr
  refine ⟨?_, ?_, ?_⟩
  · intro exch hp hk
    simp [processPANDAUpdate, he, hs, hr, hp, hk]
  · intro hp
    simp [processPANDAUpdate, he, hs, hr, hp]
  · intro exch hp hk
    simp [processPANDAUpdate, he, hs, hr, hp, hk]

/-- Witness for C5 (amended): the fully successful Success branch at a
concrete parser and ratchet establishes `c5Contact` with descriptor
7. -/
theorem C5_established_contact_witness :
    (processPANDAUpdate (fun _ => some { signedKeyExchange := [2], spoolWriteDescriptor := 7 })
        (fun _ => true) c5Contact c5Update).contact.isPending = false ∧
    (processPANDAUpdate (fun _ => some { signedKeyExchange := [2], spoolWriteDescriptor := 7 })
        (fun _ => true) c5Contact c5Update).contact.spoolWriteDescriptor = some 7 :=
  (C5_established_contact (fun _ => some { signedKeyExchange := [2], spoolWriteDescriptor := 7 })
    (fun _ => true) c5Contact c5Update [1] rfl rfl rfl).1
    { signedKeyExchange := [2], spoolWriteDescriptor := 7 } rfl rfl

/-- C6: over any sequence of reply events the read offset never
decreases and advances by exactly one per successful tip decrypt (the
offset delta always equals the `MessageReceived` delta); a read reply
for a slot below the offset is dropped as a duplicate (only the
no-op pointer-keyed tracker delete runs), one for a slot beyond the
offset panics, and one at the offset with a failing trial decrypt
panics; concretely, two replies for the same slot 5 leave the offset
at 6 with exactly one `MessageReceived` emitted. -/
theorem C6_read_offset_advancement :
    (∀ (dec : List Nat → Option (String × List Nat)) (now : Nat)
        (st : HandleState) (evs : List MessageReplyEvent) (st' : HandleState),
        runReplies dec now st evs = some st' →
          st.readOffset ≤ st'.readOffset ∧
            st'.readOffset + st.receivedCount = st.readOffset + st'.receivedCount) ∧
    (∀ (dec : List Nat → Option (String × List Nat)) (now : Nat)
        (st : HandleState) (ev : MessageReplyEvent) (tp : SentMessageDescriptor)
        (resp : SpoolResponse),
        lookupA st.sendMap (GoKey.val ev.tid) = some tp → ev.payload = some resp →
        resp.ok = true → tp.nickname = st.user → resp.messageID < st.readOffset →
          handleReply dec now st ev =
            some { st with sendMap := eraseA st.sendMap (GoKey.ptr ev.tid) }) ∧
    (∀ (dec : List Nat → Option (String × List Nat)) (now : Nat)
        (st : HandleState) (ev : MessageReplyEvent) (tp : SentMessageDescriptor)
        (resp : SpoolResponse),
        lookupA st.sendMap (GoKey.val ev.tid) = some tp → ev.payload = some resp →
        resp.ok = true → tp.nickname = st.user → st.readOffset < resp.messageID →
          handleReply dec now st ev = none) ∧
    (∀ (dec : List Nat → Option (String × List Nat)) (now : Nat)
        (st : HandleState) (ev : MessageReplyEvent) (tp : SentMessageDescriptor)
        (resp : SpoolResponse),
        lookupA st.sendMap (GoKey.val ev.tid) = some tp → ev.payload = some resp →
        resp.ok = true → tp.nickname = st.user → resp.messageID = st.readOffset →
        dec resp.message = none →
          handleReply dec now st ev = none) ∧
    ((runReplies c6Dec 0 c6State [c6Reply 1, c6Reply 2]).map
        (fun s => (s.readOffset, s.receivedCount, s.events)) =
      some (6, 1, [Event.messageReceived "bob" [10, 20]])) := by
  refine ⟨?_, ?_, ?_, ?_, rfl⟩
  · intro dec now st evs st' h
    exact runReplies_counts dec now evs st st' h
  · intro dec now st ev tp resp h1 h2 h3 h4 h5
    simp [handleReply, h1, h2, h3, h4, h5]
  · intro dec now st ev tp resp h1 h2 h3 h4 h5
    have h6 : ¬ (resp.messageID < st.readOffset) := by omega
    have h7 : ¬ (resp.messageID = st.readOffset) := by omega
    simp [handleReply, h1, h2, h3, h4, h6, h7]
  · intro dec now st ev tp resp h1 h2 h3 h4 h5 h6
    have h7 : ¬ (resp.messageID < st.readOffset) := by omega
    simp [handleReply, h1, h2, h3, h4, h5, h7, decryptMessageM, h6]

/-- Witness for C6: instantiates the run-level invariant at the empty
event sequence from `c6State`. -/
theorem C6_read_offset_advancement_witness :
    c6State.readOffset ≤ c6State.readOffset ∧
      c6State.readOffset + c6State.receivedCount =
        c6State.readOffset + c6State.receivedCount :=
  C6_read_offset_advancement.1 c6Dec 0 c6State [] c6State rfl

/-- C7 counterexample: the claim says every PandaUpdate variant ends
with a state save.  The "state echo" progress case — serialised bytes
equal to the stored exchange state — emits its event and returns
before the final `c.save()`, performing no persist at all. -/
theorem C7_echo_skips_persist :
    (processPANDAUpdate (fun _ => none) (fun _ => true) c7Contact c7Update).saves = 0 := by
  exact rfl

/-- C7 (amended): `processPANDAUpdate` performs exactly one state save
on every update variant — failure, fresh progress, and all three
Success sub-branches — except the identical-bytes "state echo"
progress case, which returns without saving. -/
theorem C7_persist_on_update :
    ∀ (parse : List Nat → Option ContactExchange) (ratchetKx : List Nat → Bool)
      (contact : Contact) (update : PandaUpdate),
      (processPANDAUpdate parse ratchetKx contact update).saves =
        if isEchoUpdate contact update then 0 else 1 := by
  intro parse ratchetKx contact update
  rcases update with ⟨err, ser, res⟩
  cases err with
  | some e => simp [processPANDAUpdate, isEchoUpdate]
  | none =>
    cases ser with
    | some s =>
      by_cases hq : contact.pandaKeyExchange = s
      · simp [processPANDAUpdate, isEchoUpdate, hq]
      · simp [processPANDAUpdate, isEchoUpdate, hq]
    | none =>
      cases res with
      | none => simp [processPANDAUpdate, isEchoUpdate]
      | some r =>
        simp only [processPANDAUpdate, isEchoUpdate]
        cases hp : parse r with
        | none => simp
        | some exch =>
          cases hk : ratchetKx exch.signedKeyExchange <;> simp [hk]

/-- Witness for C7 (amended): instantiates the persist count at the
concrete echo fixture. -/
theorem C7_persist_on_update_witness :
    (processPANDAUpdate (fun _ => none) (fun _ => true) c7Contact c7Update).saves =
      if isEchoUpdate c7Contact c7Update then 0 else 1 :=
  C7_persist_on_update (fun _ => none) (fun _ => true) c7Contact c7Update

/-- C8: sending to a nickname with no contact returns the generated
conversation MessageID as a handle, inserts an outbound `Message` with
`sent = false` and `delivered = false` into that nickname's
conversation, performs no spool submission, stores no tracker entry,
and emits no events. -/
theorem C8_unknown_recipient :
    ∀ (mm L : Nat) (enc : List Nat → List Nat) (now tid0 : Nat)
      (contacts : List (String × Contact)) (conversations : ConvMap)
      (mid : Nat) (nickname : String) (message : List Nat),
      lookupA contacts nickname = none →
      (SendMessage mid nickname message).1 = mid ∧
      doSendMessage mm L enc now tid0 contacts conversations mid nickname message =
        some { conversations := insertA conversations nickname
                 (insertA ((lookupA conversations nickname).getD []) mid
                   { plaintext := message, ciphertext := [], timestamp := now,
                     outbound := true, sent := false, delivered := false }),
               contacts := contacts, submissions := [], sendMapAdds := [],
               retransmitInvoked := false, saves := 0, events := [] } ∧
      lookupA (insertA ((lookupA conversations nickname).getD []) mid
          { plaintext := message, ciphertext := [], timestamp := now,
            outbound := true, sent := false, delivered := false }) mid =
        some { plaintext := message, ciphertext := [], timestamp := now,
               outbound := true, sent := false, delivered := false } := by
  intro mm L enc now tid0 contacts conversations mid nickname message h
  refine ⟨rfl, ?_, lookupA_insertA_self _ _ _⟩
  unfold doSendMessage
  rw [h]

/-- Witness for C8: a send to the unknown nickname "ghost" with the
payload "hi" against empty stores. -/
theorem C8_unknown_recipient_witness :
    (SendMessage 3 "ghost" [104, 105]).1 = 3 ∧
    doSendMessage 17 8 (fun p => p) 0 0 [] [] 3 "ghost" [104, 105] =
      some { conversations := insertA [] "ghost"
               (insertA ((lookupA ([] : ConvMap) "ghost").getD []) 3
                 { plaintext := [104, 105], ciphertext := [], timestamp := 0,
                   outbound := true, sent := false, delivered := false }),
             contacts := [], submissions := [], sendMapAdds := [],
             retransmitInvoked := false, saves := 0, events := [] } ∧
    lookupA (insertA ((lookupA ([] : ConvMap) "ghost").getD []) 3
        { plaintext := [104, 105], ciphertext := [], timestamp := 0,
          outbound := true, sent := false, delivered := false }) 3 =
      some { plaintext := [104, 105], ciphertext := [], timestamp := 0,
             outbound := true, sent := false, delivered := false } :=
  C8_unknown_recipient 17 8 (fun p => p) 0 0 [] [] 3 "ghost" [104, 105] rfl

end Catshadow
